import Mathlib

/-
  Verification development for a 2D grid-based fluid solver.

  The solver advances double-buffered velocity, dye and pressure grids
  once per frame through fixed stages (curl, vorticity confinement,
  semi-Lagrangian advection, divergence, Jacobi pressure relaxation,
  pressure-gradient subtraction), with clamp-to-edge sampling at grid
  boundaries.  The definitions below are a shallow embedding of those
  per-cell kernels and of the supporting resolution, configuration and
  double-buffer logic.
-/

namespace Fluid

/-- A 2D grid of values, addressed by integer cell coordinates.  Only the
cells inside a given width times height window are meaningful; all reads go
through clamp-to-edge fetching. -/
abbrev ZGrid (V : Type) := ℤ → ℤ → V

/-- Clamp an integer index into the range from 0 to n - 1
(clamp-to-edge texture addressing). -/
def clampIdx (n : ℕ) (i : ℤ) : ℤ := max 0 (min i ((n : ℤ) - 1))

/-- Texture fetch with clamp-to-edge addressing in both axes. -/
def fetch {V : Type} (w h : ℕ) (f : ZGrid V) (i j : ℤ) : V :=
  f (clampIdx w i) (clampIdx h j)

/-- Divergence kernel: 0.5 * (R.x - L.x + T.y - B.y) of the velocity field,
with neighbors fetched clamp-to-edge. -/
def divergence {K : Type} [LinearOrderedField K] (w h : ℕ)
    (v : ZGrid (K × K)) : ZGrid K := fun i j =>
  (1/2) * (((fetch w h v (i+1) j).1 - (fetch w h v (i-1) j).1)
    + ((fetch w h v i (j+1)).2 - (fetch w h v i (j-1)).2))

/-- One Jacobi relaxation pass of the pressure solver:
(L + R + B + T - divergence) * 0.25, all reads taken from the previous
iterate p. -/
def jacobiStep {K : Type} [LinearOrderedField K] (w h : ℕ)
    (d : ZGrid K) (p : ZGrid K) : ZGrid K := fun i j =>
  (fetch w h p (i-1) j + fetch w h p (i+1) j + fetch w h p i (j-1)
    + fetch w h p i (j+1) - fetch w h d i j) * (1/4)

/-- The pressure solve loop over the double buffer: each iteration renders
the Jacobi kernel from the read side into the write side and then swaps the
pair, exactly as the per-frame loop does. -/
def pressureLoop {K : Type} [LinearOrderedField K] (w h : ℕ) (d : ZGrid K) :
    ℕ → ZGrid K × ZGrid K → ZGrid K × ZGrid K
  | 0, s => s
  | k+1, s => pressureLoop w h d k (jacobiStep w h d s.1, s.1)

/-- Pressure-gradient subtraction: velocity minus (R - L, T - B) of the
pressure field. -/
def gradientSubtract {K : Type} [LinearOrderedField K] (w h : ℕ)
    (p : ZGrid K) (v : ZGrid (K × K)) : ZGrid (K × K) := fun i j =>
  ((fetch w h v i j).1 - (fetch w h p (i+1) j - fetch w h p (i-1) j),
   (fetch w h v i j).2 - (fetch w h p i (j+1) - fetch w h p i (j-1)))

/-- The projection sub-pipeline of a frame: compute the divergence of the
velocity field, run k Jacobi iterations of the pressure solve starting from
the pressure buffer p0, and subtract the resulting pressure gradient from
the velocity. -/
def projectVelocity {K : Type} [LinearOrderedField K] (w h : ℕ) (k : ℕ)
    (p0 : ZGrid K) (v : ZGrid (K × K)) : ZGrid (K × K) :=
  let d := divergence w h v
  let p := (pressureLoop w h d k (p0, p0)).1
  gradientSubtract w h p v

/-- Mean absolute divergence of a velocity field over the w times h grid. -/
def meanAbsDiv {K : Type} [LinearOrderedField K] (w h : ℕ)
    (v : ZGrid (K × K)) : K :=
  (((List.range w).map (fun i =>
    (((List.range h).map (fun j => |divergence w h v (i : ℤ) (j : ℤ)|)).sum))).sum)
    / ((w : K) * (h : K))

/-- The all-zero scalar grid. -/
def zeroGrid {K : Type} [LinearOrderedField K] : ZGrid K := fun _ _ => 0

/-- The all-zero velocity grid. -/
def zeroVelocity {K : Type} [LinearOrderedField K] : ZGrid (K × K) :=
  fun _ _ => (0, 0)

/-- A concrete 4 x 2 velocity field used to analyse the projection:
x-components 0, 2, 1, 2 in each row, y-components zero. -/
def vProbe : ZGrid (ℚ × ℚ) := fun i _ =>
  (if i ≤ 0 then 0 else if i = 1 then 2 else if i = 2 then 1 else 2, 0)

/-- A concrete scalar field used as an advection source. -/
def fProbe : ZGrid ℚ := fun i j => (i : ℚ) + 7 * (j : ℚ)

/-- A concrete constant velocity field; its divergence vanishes
everywhere. -/
def cProbe : ZGrid (ℚ × ℚ) := fun _ _ => (3, 4)

/-- Bilinear texture sampling at normalized coordinates (u, v), with
clamp-to-edge addressing of the four surrounding texels (the LINEAR
filtering used for the velocity and dye textures). -/
def sample2D {K V : Type} [LinearOrderedField K] [FloorRing K]
    [AddCommMonoid V] [Module K V] (w h : ℕ) (f : ZGrid V) (u v : K) : V :=
  let tx : K := u * (w : K) - 1/2
  let ty : K := v * (h : K) - 1/2
  let i0 : ℤ := ⌊tx⌋
  let j0 : ℤ := ⌊ty⌋
  let fx : K := tx - (i0 : K)
  let fy : K := ty - (j0 : K)
  ((1 - fx) * (1 - fy)) • fetch w h f i0 j0
    + (fx * (1 - fy)) • fetch w h f (i0 + 1) j0
    + ((1 - fx) * fy) • fetch w h f i0 (j0 + 1)
    + (fx * fy) • fetch w h f (i0 + 1) (j0 + 1)

/-- Semi-Lagrangian advection kernel: back-trace the output cell by
dt * velocity * texelSize, sample the source there, scale by dissipation.
The velocity texture has resolution vw x vh, the source texture sw x sh,
the output grid ow x oh, and tex is the texelSize uniform. -/
def advect {K V : Type} [LinearOrderedField K] [FloorRing K]
    [AddCommMonoid V] [Module K V] (vw vh sw sh ow oh : ℕ) (tex : K × K)
    (vel : ZGrid (K × K)) (src : ZGrid V) (dt dissipation : K) : ZGrid V :=
  fun i j =>
    let u : K := ((i : K) + 1/2) / (ow : K)
    let v : K := ((j : K) + 1/2) / (oh : K)
    let vs := sample2D vw vh vel u v
    let cu := u - dt * vs.1 * tex.1
    let cv := v - dt * vs.2 * tex.2
    dissipation • sample2D sw sh src cu cv

/-- Curl kernel: 0.5 * (R.y - L.y - T.x + B.x) of the velocity field. -/
def curlShader {K : Type} [LinearOrderedField K] (w h : ℕ)
    (v : ZGrid (K × K)) : ZGrid K := fun i j =>
  (1/2) * ((fetch w h v (i+1) j).2 - (fetch w h v (i-1) j).2
    - (fetch w h v i (j+1)).1 + (fetch w h v i (j-1)).1)

/-- Vorticity confinement kernel: the gradient of the absolute curl,
normalized by its length plus 0.0001, scaled by curlStrength times the
centre curl with the y-component negated, is added to the velocity
scaled by dt. -/
noncomputable def vorticityShader (w h : ℕ) (v : ZGrid (ℝ × ℝ))
    (c : ZGrid ℝ) (curlStrength dt : ℝ) : ZGrid (ℝ × ℝ) := fun i j =>
  let L := fetch w h c (i-1) j
  let R := fetch w h c (i+1) j
  let T := fetch w h c i (j+1)
  let B := fetch w h c i (j-1)
  let C := fetch w h c i j
  let f0 : ℝ × ℝ := ((1/2) * (|T| - |B|), (1/2) * (|R| - |L|))
  let n : ℝ := Real.sqrt (f0.1 * f0.1 + f0.2 * f0.2) + 1/10000
  let f1 : ℝ × ℝ := (f0.1 / n * (curlStrength * C), f0.2 / n * (curlStrength * C))
  let vel := fetch w h v i j
  (vel.1 + f1.1 * dt, vel.2 + (-f1.2) * dt)

/-- Splat kernel: adds exp(-dot(p, p) / radius) * impulse to the target,
where p is the offset of the cell from the splat point with its
x-component pre-scaled by the aspect ratio. -/
noncomputable def splatShader {V : Type} [AddCommMonoid V] [Module ℝ V]
    (w h : ℕ) (aspect : ℝ) (point : ℝ × ℝ) (radius : ℝ) (impulse : V)
    (target : ZGrid V) : ZGrid V := fun i j =>
  let u : ℝ := ((i : ℝ) + 1/2) / (w : ℝ)
  let v : ℝ := ((j : ℝ) + 1/2) / (h : ℝ)
  let px : ℝ := aspect * (u - point.1)
  let py : ℝ := v - point.2
  fetch w h target i j + Real.exp (-(px * px + py * py) / radius) • impulse

/-- The live configuration record. -/
structure Config where
  SIM_RESOLUTION : ℚ
  DYE_RESOLUTION : ℚ
  DENSITY_DISSIPATION : ℚ
  VELOCITY_DISSIPATION : ℚ
  PRESSURE : ℚ
  PRESSURE_ITERATIONS : ℕ
  CURL : ℚ
  SPLAT_RADIUS : ℚ
  SPLAT_FORCE : ℚ
  SHADING : Bool
  COLORFUL : Bool
  PAUSED : Bool
  BACK_COLOR : ℚ × ℚ × ℚ
  TRANSPARENT : Bool
  FALLBACK_RESOLUTION : ℚ
deriving DecidableEq

/-- The initial configuration object. -/
def config : Config :=
  { SIM_RESOLUTION := 128
    DYE_RESOLUTION := 1024
    DENSITY_DISSIPATION := 3
    VELOCITY_DISSIPATION := 45/100
    PRESSURE := 8/10
    PRESSURE_ITERATIONS := 20
    CURL := 9
    SPLAT_RADIUS := 12/100
    SPLAT_FORCE := 6000
    SHADING := false
    COLORFUL := false
    PAUSED := false
    BACK_COLOR := (0, 0, 0)
    TRANSPARENT := false
    FALLBACK_RESOLUTION := 512 }

/-- A partial configuration: the argument of setConfig, holding only the
keys the caller provides. -/
structure ConfigPatch where
  SIM_RESOLUTION : Option ℚ := none
  DYE_RESOLUTION : Option ℚ := none
  DENSITY_DISSIPATION : Option ℚ := none
  VELOCITY_DISSIPATION : Option ℚ := none
  PRESSURE : Option ℚ := none
  PRESSURE_ITERATIONS : Option ℕ := none
  CURL : Option ℚ := none
  SPLAT_RADIUS : Option ℚ := none
  SPLAT_FORCE : Option ℚ := none
  SHADING : Option Bool := none
  COLORFUL : Option Bool := none
  PAUSED : Option Bool := none
  BACK_COLOR : Option (ℚ × ℚ × ℚ) := none
  TRANSPARENT : Option Bool := none
  FALLBACK_RESOLUTION : Option ℚ := none

/-- setConfig: Object.assign of the provided keys onto the live
configuration — every provided key overwrites, every absent key keeps its
prior value. -/
def setConfig (c : Config) (n : ConfigPatch) : Config where
  SIM_RESOLUTION := n.SIM_RESOLUTION.getD c.SIM_RESOLUTION
  DYE_RESOLUTION := n.DYE_RESOLUTION.getD c.DYE_RESOLUTION
  DENSITY_DISSIPATION := n.DENSITY_DISSIPATION.getD c.DENSITY_DISSIPATION
  VELOCITY_DISSIPATION := n.VELOCITY_DISSIPATION.getD c.VELOCITY_DISSIPATION
  PRESSURE := n.PRESSURE.getD c.PRESSURE
  PRESSURE_ITERATIONS := n.PRESSURE_ITERATIONS.getD c.PRESSURE_ITERATIONS
  CURL := n.CURL.getD c.CURL
  SPLAT_RADIUS := n.SPLAT_RADIUS.getD c.SPLAT_RADIUS
  SPLAT_FORCE := n.SPLAT_FORCE.getD c.SPLAT_FORCE
  SHADING := n.SHADING.getD c.SHADING
  COLORFUL := n.COLORFUL.getD c.COLORFUL
  PAUSED := n.PAUSED.getD c.PAUSED
  BACK_COLOR := n.BACK_COLOR.getD c.BACK_COLOR
  TRANSPARENT := n.TRANSPARENT.getD c.TRANSPARENT
  FALLBACK_RESOLUTION := n.FALLBACK_RESOLUTION.getD c.FALLBACK_RESOLUTION

/-- pause: sets the PAUSED flag of the live configuration. -/
def pause (c : Config) : Config := { c with PAUSED := true }

/-- A setConfig argument providing a resolution, a density dissipation and
a splat radius, leaving every other key absent. -/
def patchValues (r d rad : ℚ) : ConfigPatch :=
  { SIM_RESOLUTION := some r, DENSITY_DISSIPATION := some d, SPLAT_RADIUS := some rad }

/-- JavaScript Math.round: round half toward positive infinity. -/
def jsRound (q : ℚ) : ℤ := ⌊q + 1/2⌋

/-- The simulation-resolution computation of the main file: from the canvas
aspect ratio and a target resolution, returns (width, height). -/
def getResolution (canvasW canvasH resolution : ℚ) : ℤ × ℤ :=
  let aspect := canvasW / canvasH
  if aspect < 1 then (jsRound resolution, jsRound (resolution / aspect))
  else (jsRound (resolution * aspect), jsRound resolution)

/-- The resolution computation of the utilities file: normalizes the aspect
ratio to at least 1, then assigns the scaled value to the longer axis of
the drawing buffer. -/
def getResolutionUtil (bufW bufH resolution : ℚ) : ℤ × ℤ :=
  let a0 := bufW / bufH
  let a := if a0 < 1 then 1 / a0 else a0
  let mx := jsRound (resolution * a)
  let mn := jsRound resolution
  if bufW > bufH then (mx, mn) else (mn, mx)

/-- The helper of the utilities file that scales a splat radius by the
drawing-buffer aspect ratio.  It is declared there but never invoked by the
simulation. -/
def correctRadius (bufW bufH radius : ℚ) : ℚ := radius * (bufW / bufH)

/-- The radius uniform the splat call passes to the splat shader: the
configured splat radius divided by 100.  The aspect ratio is in scope at
the call site but does not enter the computation. -/
def splatRadius (c : Config) (_aspect : ℚ) : ℚ := c.SPLAT_RADIUS / 100

/-- A framebuffer object: one texture of a given size.  The texture
identity stands for the distinct GPU storage each createFBO call
allocates. -/
structure FBO where
  texId : ℕ
  width : ℕ
  height : ℕ
deriving DecidableEq

/-- createFBO: allocates a fresh texture (fresh identity from the
allocation counter) of the requested size. -/
def createFBO (alloc w h : ℕ) : FBO × ℕ := (⟨alloc, w, h⟩, alloc + 1)

/-- A double buffer: a read framebuffer and a write framebuffer. -/
structure DoubleFBO where
  read : FBO
  write : FBO
deriving DecidableEq

/-- createDoubleFBO: allocates two framebuffers and pairs them as
read/write. -/
def createDoubleFBO (alloc w h : ℕ) : DoubleFBO × ℕ :=
  let r1 := createFBO alloc w h
  let r2 := createFBO r1.2 w h
  (⟨r1.1, r2.1⟩, r2.2)

/-- swap: exchanges the read and write references of a double buffer, never
touching the framebuffers themselves. -/
def DoubleFBO.swap (d : DoubleFBO) : DoubleFBO := ⟨d.write, d.read⟩

/-- The grid resolutions the per-frame passes run at. -/
structure GridRes where
  simW : ℕ
  simH : ℕ
  dyeW : ℕ
  dyeH : ℕ

/-- The mutable per-frame simulation fields (the read sides of the double
buffers plus the two single-buffered auxiliary fields). -/
structure SimState where
  velocity : ZGrid (ℝ × ℝ)
  dye : ZGrid (ℝ × ℝ × ℝ)
  pressure : ZGrid ℝ
  divergenceField : ZGrid ℝ
  curlField : ZGrid ℝ

/-- One frame of the solver, transcribed pass for pass from the step
function: curl, vorticity confinement, velocity advection, dye advection,
divergence, the pressure Jacobi loop (warm-started from the persistent
pressure buffer), and pressure-gradient subtraction.  The texelSize
uniform of the advection program stays at the simulation resolution for
both advection passes, as in the source. -/
noncomputable def step (r : GridRes) (cfg : Config) (dt : ℝ)
    (s : SimState) : SimState :=
  let curlF := curlShader r.simW r.simH s.velocity
  let v1 := vorticityShader r.simW r.simH s.velocity curlF (cfg.CURL : ℝ) dt
  let v2 := advect r.simW r.simH r.simW r.simH r.simW r.simH
    (1 / (r.simW : ℝ), 1 / (r.simH : ℝ)) v1 v1 dt (cfg.VELOCITY_DISSIPATION : ℝ)
  let dye1 := advect r.simW r.simH r.dyeW r.dyeH r.dyeW r.dyeH
    (1 / (r.simW : ℝ), 1 / (r.simH : ℝ)) v2 s.dye dt (cfg.DENSITY_DISSIPATION : ℝ)
  let d := divergence r.simW r.simH v2
  let p := (pressureLoop r.simW r.simH d cfg.PRESSURE_ITERATIONS (s.pressure, s.pressure)).1
  let v3 := gradientSubtract r.simW r.simH p v2
  { velocity := v3, dye := dye1, pressure := p, divergenceField := d, curlField := curlF }

/-- Stage 1: render the curl of the velocity into the curl field. -/
noncomputable def stageCurl (r : GridRes) (s : SimState) : SimState :=
  { s with curlField := curlShader r.simW r.simH s.velocity }

/-- Stage 2: vorticity confinement over the velocity double buffer. -/
noncomputable def stageVorticity (r : GridRes) (cfg : Config) (dt : ℝ)
    (s : SimState) : SimState :=
  { s with velocity :=
      vorticityShader r.simW r.simH s.velocity s.curlField (cfg.CURL : ℝ) dt }

/-- Stage 3: self-advection of the velocity field. -/
noncomputable def stageAdvectVelocity (r : GridRes) (cfg : Config) (dt : ℝ)
    (s : SimState) : SimState :=
  let v1 := advect r.simW r.simH r.simW r.simH r.simW r.simH
    (1 / (r.simW : ℝ), 1 / (r.simH : ℝ)) s.velocity s.velocity dt
    (cfg.VELOCITY_DISSIPATION : ℝ)
  { s with velocity := v1 }

/-- Stage 4: advection of the dye field by the updated velocity. -/
noncomputable def stageAdvectDye (r : GridRes) (cfg : Config) (dt : ℝ)
    (s : SimState) : SimState :=
  let dye1 := advect r.simW r.simH r.dyeW r.dyeH r.dyeW r.dyeH
    (1 / (r.simW : ℝ), 1 / (r.simH : ℝ)) s.velocity s.dye dt
    (cfg.DENSITY_DISSIPATION : ℝ)
  { s with dye := dye1 }

/-- Stage 5: render the divergence of the velocity. -/
noncomputable def stageDivergence (r : GridRes) (s : SimState) : SimState :=
  { s with divergenceField := divergence r.simW r.simH s.velocity }

/-- Stage 6: the fixed-count pressure Jacobi loop over the pressure double
buffer. -/
noncomputable def stagePressure (r : GridRes) (cfg : Config)
    (s : SimState) : SimState :=
  { s with pressure := (pressureLoop r.simW r.simH s.divergenceField
      cfg.PRESSURE_ITERATIONS (s.pressure, s.pressure)).1 }

/-- Stage 7: subtract the pressure gradient from the velocity. -/
noncomputable def stageGradientSubtract (r : GridRes) (s : SimState) :
    SimState :=
  { s with velocity := gradientSubtract r.simW r.simH s.pressure s.velocity }

/-- The per-frame invocation of step by the animation loop: the frame dt is
clamped through Math.min(dt, 0.016) before the stages run. -/
noncomputable def stepClamped (r : GridRes) (cfg : Config) (dt : ℝ)
    (s : SimState) : SimState :=
  step r cfg (min dt (2/125)) s

lemma clampIdx_of_bounds (n : ℕ) (i : ℤ) (h0 : 0 ≤ i) (h1 : i < (n : ℤ)) :
    clampIdx n i = i := by
  unfold clampIdx
  omega

lemma clampIdx_idem (n : ℕ) (i : ℤ) : clampIdx n (clampIdx n i) = clampIdx n i := by
  unfold clampIdx
  omega

lemma fetch_fetch {V : Type} (w h : ℕ) (f : ZGrid V) (i j : ℤ) :
    fetch w h (fun a b => fetch w h f a b) i j = fetch w h f i j := by
  simp only [fetch, clampIdx_idem]

lemma pressureLoop_succ {K : Type} [LinearOrderedField K] (w h : ℕ)
    (d : ZGrid K) (k : ℕ) (s : ZGrid K × ZGrid K) :
    pressureLoop w h d (k+1) s
      = ((jacobiStep w h d)^[k+1] s.1, (jacobiStep w h d)^[k] s.1) := by
  induction k generalizing s with
  | zero => simp [pressureLoop]
  | succ k ih =>
      show pressureLoop w h d (k+1) (jacobiStep w h d s.1, s.1) = _
      rw [ih (jacobiStep w h d s.1, s.1)]
      simp only [Function.iterate_succ_apply]

lemma pressureLoop_fst {K : Type} [LinearOrderedField K] (w h : ℕ)
    (d : ZGrid K) (k : ℕ) (s : ZGrid K × ZGrid K) :
    (pressureLoop w h d k s).1 = (jacobiStep w h d)^[k] s.1 := by
  cases k with
  | zero => rfl
  | succ k => rw [pressureLoop_succ]

lemma jacobi_iterate_zero {K : Type} [LinearOrderedField K] (w h : ℕ)
    (d : ZGrid K) (hd : ∀ i j : ℤ, d i j = 0) (k : ℕ) :
    (jacobiStep w h d)^[k] zeroGrid = zeroGrid := by
  induction k with
  | zero => rfl
  | succ k ih =>
      rw [Function.iterate_succ_apply', ih]
      funext i j
      simp only [jacobiStep, zeroGrid, fetch]
      rw [hd]
      norm_num

lemma sample2D_center {K V : Type} [LinearOrderedField K] [FloorRing K]
    [AddCommMonoid V] [Module K V] (w h : ℕ) (f : ZGrid V) (i j : ℤ)
    (hw : 0 < w) (hh : 0 < h) :
    sample2D w h f (((i : K) + 1/2) / (w : K)) (((j : K) + 1/2) / (h : K))
      = fetch w h f i j := by
  have hw0 : ((w : ℕ) : K) ≠ 0 := Nat.cast_ne_zero.mpr hw.ne'
  have hh0 : ((h : ℕ) : K) ≠ 0 := Nat.cast_ne_zero.mpr hh.ne'
  have hx : (((i : K) + 1/2) / (w : K)) * (w : K) - 1/2 = (i : K) := by
    field_simp
    ring
  have hy : (((j : K) + 1/2) / (h : K)) * (h : K) - 1/2 = (j : K) := by
    field_simp
    ring
  simp only [sample2D, hx, hy, Int.floor_intCast, sub_self, zero_mul,
    mul_zero, zero_smul, sub_zero, one_mul, mul_one, one_smul, add_zero]

lemma sample2D_zeroVelocity {K : Type} [LinearOrderedField K] [FloorRing K]
    (w h : ℕ) (u v : K) :
    sample2D w h (zeroVelocity (K := K)) u v = (0 : K × K) := by
  simp [sample2D, zeroVelocity, fetch, Prod.mk_zero_zero]

lemma advect_zeroVelocity_cell {K V : Type} [LinearOrderedField K]
    [FloorRing K] [AddCommMonoid V] [Module K V] (vw vh w h : ℕ)
    (tex : K × K) (f : ZGrid V) (dt d : K) (i j : ℤ)
    (hw : 0 < w) (hh : 0 < h) (hi0 : 0 ≤ i) (hiw : i < (w : ℤ))
    (hj0 : 0 ≤ j) (hjh : j < (h : ℤ)) :
    advect vw vh w h w h tex zeroVelocity f dt d i j = d • f i j := by
  simp only [advect, sample2D_zeroVelocity, Prod.fst_zero, Prod.snd_zero,
    mul_zero, zero_mul, sub_zero]
  rw [sample2D_center w h f i j hw hh]
  unfold fetch
  rw [clampIdx_of_bounds w i hi0 hiw, clampIdx_of_bounds h j hj0 hjh]

lemma swap_iterate_ne (k : ℕ) (d : DoubleFBO) (hne : d.read ≠ d.write) :
    (DoubleFBO.swap^[k] d).read ≠ (DoubleFBO.swap^[k] d).write := by
  induction k generalizing d with
  | zero => exact hne
  | succ k ih =>
      rw [Function.iterate_succ_apply]
      exact ih d.swap (Ne.symm hne)

set_option maxHeartbeats 2000000 in
/-- Claim C1 counterexample: on a 4 x 2 grid, the velocity field with
x-components 0, 2, 1, 2 per row has nonzero divergence and mean absolute
divergence 1/2; running the pressure projection with 1 Jacobi iteration
(zero-initialized pressure) followed by gradient subtraction yields mean
absolute divergence 9/16 — strictly larger, not strictly smaller. -/
theorem projection_can_increase_mean_abs_div :
    divergence 4 2 vProbe 0 0 = 1
  ∧ meanAbsDiv 4 2 vProbe = 1/2
  ∧ meanAbsDiv 4 2 (projectVelocity 4 2 1 zeroGrid vProbe) = 9/16
  ∧ ¬ meanAbsDiv 4 2 (projectVelocity 4 2 1 zeroGrid vProbe)
      < meanAbsDiv 4 2 vProbe := by
  have h1 : divergence 4 2 vProbe 0 0 = 1 := by
    norm_num [divergence, fetch, clampIdx, vProbe, max_def, min_def]
  have h2 : meanAbsDiv 4 2 vProbe = 1/2 := by
    norm_num [meanAbsDiv, divergence, fetch, clampIdx, vProbe, max_def, min_def,
      List.range_succ, abs_eq_max_neg]
  have h3 : meanAbsDiv 4 2 (projectVelocity 4 2 1 zeroGrid vProbe) = 9/16 := by
    norm_num [meanAbsDiv, divergence, projectVelocity, pressureLoop, jacobiStep,
      gradientSubtract, fetch, clampIdx, vProbe, zeroGrid, max_def, min_def,
      List.range_succ, abs_eq_max_neg]
  refine ⟨h1, h2, h3, ?_⟩
  rw [h2, h3]
  norm_num

/-- Claim C1 as amended: the projection does not strictly reduce the mean
absolute divergence of every nonzero-divergence field (with clamp-to-edge
boundaries it can leave it unchanged or even increase it, as the
counterexample shows).  What does hold is the fixed-point property: a
velocity field whose divergence vanishes everywhere is left unchanged on
the grid — from a zero-initialized pressure buffer every Jacobi iteration
keeps the pressure at zero and the gradient subtraction subtracts nothing,
so the mean absolute divergence is also unchanged. -/
theorem projection_fixes_divergence_free {K : Type} [LinearOrderedField K]
    (w h k : ℕ) (v : ZGrid (K × K))
    (hdiv : ∀ i j : ℤ, divergence w h v i j = 0) :
    projectVelocity w h k zeroGrid v = (fun i j => fetch w h v i j)
  ∧ meanAbsDiv w h (projectVelocity w h k zeroGrid v) = meanAbsDiv w h v := by
  have hp : (pressureLoop w h (divergence w h v) k (zeroGrid, zeroGrid)).1
      = zeroGrid := by
    rw [pressureLoop_fst]
    exact jacobi_iterate_zero w h _ hdiv k
  have hproj : projectVelocity w h k zeroGrid v
      = (fun i j => fetch w h v i j) := by
    simp only [projectVelocity]
    rw [hp]
    funext i j
    simp [gradientSubtract, zeroGrid, fetch]
  have hdiv2 : divergence w h (fun i j => fetch w h v i j)
      = divergence w h v := by
    funext i j
    simp only [divergence, fetch_fetch]
  refine ⟨hproj, ?_⟩
  rw [hproj]
  unfold meanAbsDiv
  rw [hdiv2]

/-- Witness for the amended claim C1 at a concrete input: the constant
velocity field (3, 4) on the 2 x 2 grid is divergence-free and the
projection with 20 Jacobi iterations leaves it unchanged. -/
theorem projection_fixes_divergence_free_witness :
    projectVelocity 2 2 20 zeroGrid cProbe = (fun i j => fetch 2 2 cProbe i j)
  ∧ meanAbsDiv 2 2 (projectVelocity 2 2 20 zeroGrid cProbe)
      = meanAbsDiv 2 2 cProbe :=
  projection_fixes_divergence_free 2 2 20 cProbe
    (fun i j => by simp [divergence, cProbe, fetch])

/-- Claim C2 counterexample: a setConfig call whose argument holds the
non-positive resolution -5 is not rejected — it installs -5 and mutates the
live configuration. -/
theorem setConfig_accepts_invalid :
    (setConfig config { SIM_RESOLUTION := some (-5) }).SIM_RESOLUTION = -5
      ∧ config.SIM_RESOLUTION = 128
      ∧ setConfig config { SIM_RESOLUTION := some (-5) } ≠ config := by
  refine ⟨rfl, rfl, fun hEq => ?_⟩
  have h5 : (-5 : ℚ) = 128 := by
    simpa [setConfig, config] using congrArg Config.SIM_RESOLUTION hEq
  norm_num at h5

/-- Claim C2 as amended: setConfig performs no validation.  It merges every
provided field into the live configuration unconditionally — any resolution,
dissipation or splat-radius value, non-positive or out-of-range included, is
installed verbatim — while every unprovided field keeps its prior value. -/
theorem setConfig_merges_unconditionally (c : Config) (r d rad : ℚ) :
    (setConfig c (patchValues r d rad)).SIM_RESOLUTION = r
  ∧ (setConfig c (patchValues r d rad)).DENSITY_DISSIPATION = d
  ∧ (setConfig c (patchValues r d rad)).SPLAT_RADIUS = rad
  ∧ (setConfig c (patchValues r d rad)).DYE_RESOLUTION = c.DYE_RESOLUTION
  ∧ (setConfig c (patchValues r d rad)).VELOCITY_DISSIPATION = c.VELOCITY_DISSIPATION
  ∧ (setConfig c (patchValues r d rad)).PRESSURE = c.PRESSURE
  ∧ (setConfig c (patchValues r d rad)).PRESSURE_ITERATIONS = c.PRESSURE_ITERATIONS
  ∧ (setConfig c (patchValues r d rad)).CURL = c.CURL
  ∧ (setConfig c (patchValues r d rad)).SPLAT_FORCE = c.SPLAT_FORCE
  ∧ (setConfig c (patchValues r d rad)).PAUSED = c.PAUSED :=
  ⟨rfl, rfl, rfl, rfl, rfl, rfl, rfl, rfl, rfl, rfl⟩

/-- Claim C3: the pressure solve runs exactly the requested number of
Jacobi iterations and no fewer or more — after k+1 loop iterations the read
side holds the (k+1)-fold Jacobi iterate of the initial read buffer and the
write side the k-fold iterate (the buffers having been swapped after every
iteration), independent of the initial write-side contents (so no iteration
ever reads a partially updated field); and each iteration computes
pressure = (L + R + B + T - divergence) * 0.25 from the previous full
field. -/
theorem pressure_solve_is_fixed_count_jacobi {K : Type}
    [LinearOrderedField K] (w h : ℕ) (d p0 pw : ZGrid K) (k : ℕ) :
    pressureLoop w h d (k+1) (p0, pw)
      = ((jacobiStep w h d)^[k+1] p0, (jacobiStep w h d)^[k] p0)
  ∧ (∀ (p : ZGrid K) (i j : ℤ), jacobiStep w h d p i j
      = (fetch w h p (i-1) j + fetch w h p (i+1) j + fetch w h p i (j-1)
          + fetch w h p i (j+1) - fetch w h d i j) * (1/4)) :=
  ⟨pressureLoop_succ w h d k (p0, pw), fun _ _ _ => rfl⟩

/-- Claim C4: one frame is the fixed stage sequence curl, vorticity
confinement, velocity advection, dye advection, divergence, pressure Jacobi
loop, gradient subtraction; and the dt the stages receive is the frame dt
clamped to the stability ceiling 0.016: min(dt, 0.016), so any dt above the
ceiling is replaced by the ceiling and any dt at or below it is passed
through unchanged. -/
theorem step_stage_order_and_dt_clamp (r : GridRes) (cfg : Config)
    (dt : ℝ) (s : SimState) :
    stepClamped r cfg dt s = step r cfg (min dt (2/125)) s
  ∧ (2/125 < dt → stepClamped r cfg dt s = step r cfg (2/125) s)
  ∧ (dt ≤ 2/125 → stepClamped r cfg dt s = step r cfg dt s)
  ∧ step r cfg dt s = stageGradientSubtract r (stagePressure r cfg
      (stageDivergence r (stageAdvectDye r cfg dt (stageAdvectVelocity r cfg dt
        (stageVorticity r cfg dt (stageCurl r s)))))) := by
  refine ⟨rfl, fun hlt => ?_, fun hle => ?_, rfl⟩
  · unfold stepClamped
    rw [min_eq_right hlt.le]
  · unfold stepClamped
    rw [min_eq_left hle]

/-- Claim C7 counterexample: at aspect ratio 2 the radius uniform handed to
the splat shader is SPLAT_RADIUS / 100 = 0.0012, not the aspect-scaled
radius 0.24 that the correctRadius helper would produce — the radius is not
scaled by the aspect ratio. -/
theorem splat_radius_not_aspect_scaled :
    splatRadius config 2 = 3/2500
  ∧ correctRadius 200 100 config.SPLAT_RADIUS = 6/25
  ∧ splatRadius config 2 ≠ correctRadius 200 100 config.SPLAT_RADIUS := by
  refine ⟨by norm_num [splatRadius, config], by norm_num [correctRadius, config], ?_⟩
  norm_num [splatRadius, correctRadius, config]

/-- Claim C7 as amended: the radius the splat pass feeds to the Gaussian is
the configured splat radius divided by 100, identical for every aspect
ratio; the aspect correction that keeps splats circular is applied instead
to the offset from the splat centre, whose x-component the shader
pre-scales by the aspect ratio before the falloff is evaluated. -/
theorem splat_radius_uniform_and_offset_prescale (c : Config) (a a' : ℚ) :
    splatRadius c a = c.SPLAT_RADIUS / 100
  ∧ splatRadius c a = splatRadius c a'
  ∧ (∀ (w h : ℕ) (asp : ℝ) (pt : ℝ × ℝ) (rad : ℝ) (I : ℝ × ℝ)
      (v : ZGrid (ℝ × ℝ)) (i j : ℤ),
      splatShader w h asp pt rad I v i j
        = fetch w h v i j
          + Real.exp (-((asp * (((i : ℝ) + 1/2) / (w : ℝ) - pt.1))
              * (asp * (((i : ℝ) + 1/2) / (w : ℝ) - pt.1))
            + (((j : ℝ) + 1/2) / (h : ℝ) - pt.2)
              * (((j : ℝ) + 1/2) / (h : ℝ) - pt.2)) / rad) • I) :=
  ⟨rfl, rfl, fun _ _ _ _ _ _ _ _ _ => rfl⟩

/-- Claim C9: a freshly created double buffer has two distinct framebuffers
as read and write, the two stay distinct after any number of swaps, and
swap only exchanges the two references (the read of the swapped buffer is
the old write and vice versa; the framebuffers themselves are untouched). -/
theorem doubleFBO_nonaliasing (alloc w h k : ℕ) :
    ((createDoubleFBO alloc w h).1).read ≠ ((createDoubleFBO alloc w h).1).write
  ∧ (DoubleFBO.swap^[k] (createDoubleFBO alloc w h).1).read
      ≠ (DoubleFBO.swap^[k] (createDoubleFBO alloc w h).1).write
  ∧ (∀ e : DoubleFBO, e.swap.read = e.write ∧ e.swap.write = e.read) := by
  have hne : ((createDoubleFBO alloc w h).1).read
      ≠ ((createDoubleFBO alloc w h).1).write := by
    intro hEq
    have := congrArg FBO.texId hEq
    simp [createDoubleFBO, createFBO] at this
  exact ⟨hne, swap_iterate_ne k _ hne, fun e => ⟨rfl, rfl⟩⟩

/-- Claim C10: one step is oblivious to the PRESSURE and PAUSED fields of
the configuration — two runs whose configurations differ only in those two
fields produce identical states, because step never reads either field. -/
theorem step_ignores_pressure_and_paused (r : GridRes) (cfg : Config)
    (x : ℚ) (b : Bool) (dt : ℝ) (s : SimState) :
    step r { cfg with PRESSURE := x, PAUSED := b } dt s = step r cfg dt s :=
  rfl

/-- Claim C5: one advection pass with an everywhere-zero velocity field
multiplies every grid cell by exactly the dissipation factor d, n repeated
passes scale the cell by d to the power n, and with d = 1 the pass leaves
the field unchanged. -/
theorem advect_zero_velocity_dissipation {V : Type} [AddCommMonoid V]
    [Module ℚ V] (vw vh w h : ℕ) (tex : ℚ × ℚ) (f : ZGrid V) (dt d : ℚ)
    (n : ℕ) (i j : ℤ) (hw : 0 < w) (hh : 0 < h) (hi0 : 0 ≤ i)
    (hiw : i < (w : ℤ)) (hj0 : 0 ≤ j) (hjh : j < (h : ℤ)) :
    advect vw vh w h w h tex zeroVelocity f dt d i j = d • f i j
  ∧ (fun g => advect vw vh w h w h tex zeroVelocity g dt d)^[n] f i j
      = d ^ n • f i j
  ∧ advect vw vh w h w h tex zeroVelocity f dt 1 i j = f i j := by
  have hcell : ∀ (g : ZGrid V) (dd : ℚ),
      advect vw vh w h w h tex zeroVelocity g dt dd i j = dd • g i j :=
    fun g dd =>
      advect_zeroVelocity_cell vw vh w h tex g dt dd i j hw hh hi0 hiw hj0 hjh
  refine ⟨hcell f d, ?_, by rw [hcell f 1, one_smul]⟩
  induction n with
  | zero => simp
  | succ n ih =>
      rw [Function.iterate_succ_apply', hcell _ d, ih, smul_smul, ← pow_succ']

/-- Witness for claim C5 at a concrete input: advecting the field
fProbe on a 2 x 2 grid with zero velocity and dissipation 1/2. -/
theorem advect_zero_velocity_dissipation_witness :
    advect 3 3 2 2 2 2 ((1/3 : ℚ), (1/3 : ℚ)) zeroVelocity fProbe 5 (1/2) 1 1
      = (1/2 : ℚ) • fProbe 1 1
  ∧ (fun g => advect 3 3 2 2 2 2 ((1/3 : ℚ), (1/3 : ℚ)) zeroVelocity g 5
      (1/2))^[3] fProbe 1 1 = (1/2 : ℚ) ^ 3 • fProbe 1 1
  ∧ advect 3 3 2 2 2 2 ((1/3 : ℚ), (1/3 : ℚ)) zeroVelocity fProbe 5 1 1 1
      = fProbe 1 1 :=
  advect_zero_velocity_dissipation 3 3 2 2 ((1/3 : ℚ), (1/3 : ℚ)) fProbe 5
    (1/2) 3 1 1 (by norm_num) (by norm_num) (by norm_num) (by norm_num)
    (by norm_num) (by norm_num)

/-- Claim C6: splats at the same point are additive — two splat passes with
impulses I1 then I2 produce, on every grid cell, the same value as one
splat pass with impulse I1 + I2 (exactly, the arithmetic being exact),
because each pass adds exp(-dot(p, p) / radius) * impulse to the cell. -/
theorem splat_additivity {V : Type} [AddCommMonoid V] [Module ℝ V]
    (w h : ℕ) (a : ℝ) (pt : ℝ × ℝ) (rad : ℝ) (I1 I2 : V) (tgt : ZGrid V)
    (i j : ℤ) (hi0 : 0 ≤ i) (hiw : i < (w : ℤ)) (hj0 : 0 ≤ j)
    (hjh : j < (h : ℤ)) :
    splatShader w h a pt rad I2 (splatShader w h a pt rad I1 tgt) i j
      = splatShader w h a pt rad (I1 + I2) tgt i j
  ∧ splatShader w h a pt rad I1 tgt i j
      = fetch w h tgt i j
        + Real.exp (-((a * (((i : ℝ) + 1/2) / (w : ℝ) - pt.1))
            * (a * (((i : ℝ) + 1/2) / (w : ℝ) - pt.1))
          + (((j : ℝ) + 1/2) / (h : ℝ) - pt.2)
            * (((j : ℝ) + 1/2) / (h : ℝ) - pt.2)) / rad) • I1 := by
  refine ⟨?_, rfl⟩
  simp [splatShader, fetch, clampIdx_of_bounds w i hi0 hiw,
    clampIdx_of_bounds h j hj0 hjh, smul_add, add_assoc]

/-- Witness for claim C6 at a concrete input: two velocity splats with
impulses (5, 7) and (2, 3) at the centre of a 1 x 1 grid equal one splat
with impulse (7, 10). -/
theorem splat_additivity_witness :
    splatShader 1 1 1 ((0 : ℝ), (0 : ℝ)) 1 ((2 : ℝ), (3 : ℝ))
        (splatShader 1 1 1 ((0 : ℝ), (0 : ℝ)) 1 ((5 : ℝ), (7 : ℝ))
          zeroVelocity) 0 0
      = splatShader 1 1 1 ((0 : ℝ), (0 : ℝ)) 1
          (((5 : ℝ), (7 : ℝ)) + ((2 : ℝ), (3 : ℝ))) zeroVelocity 0 0 :=
  (splat_additivity 1 1 1 ((0 : ℝ), (0 : ℝ)) 1 ((5 : ℝ), (7 : ℝ))
    ((2 : ℝ), (3 : ℝ)) zeroVelocity 0 0 le_rfl (by norm_num) le_rfl
    (by norm_num)).1

/-- Claim C8 counterexample: for a 200 x 100 surface (aspect ratio 2) and
target resolution 128 the derived grid is 256 x 128 — the larger dimension
is 256, the aspect-scaled value, not the rounded target 128. -/
theorem getResolution_larger_not_target :
    getResolution 200 100 128 = (256, 128)
  ∧ jsRound 128 = 128
  ∧ max (getResolution 200 100 128).1 (getResolution 200 100 128).2
      ≠ jsRound 128 := by
  have hr : jsRound (128 : ℚ) = 128 := by
    norm_num [jsRound]
  have h1 : getResolution 200 100 128 = (256, 128) := by
    norm_num [getResolution, jsRound]
  refine ⟨h1, hr, ?_⟩
  rw [h1, hr]
  norm_num

/-- Claim C8 as amended: the derived grid resolution has its smaller
dimension equal to the rounded target and its larger dimension equal to
the target scaled by the (normalized, at least 1) aspect ratio; the two
getResolution implementations agree. -/
theorem getResolution_smaller_is_target (cw ch res : ℚ) (hcw : 0 < cw)
    (hch : 0 < ch) (hres : 0 < res) :
    min (getResolution cw ch res).1 (getResolution cw ch res).2 = jsRound res
  ∧ max (getResolution cw ch res).1 (getResolution cw ch res).2
      = jsRound (res * (if cw / ch < 1 then ch / cw else cw / ch))
  ∧ getResolution cw ch res = getResolutionUtil cw ch res := by
  have ha0 : 0 < cw / ch := div_pos hcw hch
  by_cases hlt : cw / ch < 1
  · have hcwch : cw < ch := (div_lt_one hch).mp hlt
    have hres2 : res ≤ res / (cw / ch) := by
      rw [le_div_iff₀ ha0]
      exact mul_le_of_le_one_right hres.le hlt.le
    have hjr : jsRound res ≤ jsRound (res / (cw / ch)) :=
      Int.floor_le_floor (by linarith)
    have hg : getResolution cw ch res
        = (jsRound res, jsRound (res / (cw / ch))) := by
      simp only [getResolution, if_pos hlt]
    have heq : res / (cw / ch) = res * (ch / cw) := by
      rw [div_div_eq_mul_div, mul_div_assoc]
    refine ⟨?_, ?_, ?_⟩
    · rw [hg]
      exact min_eq_left hjr
    · rw [hg, if_pos hlt]
      simpa [heq] using max_eq_right hjr
    · rw [hg]
      simp only [getResolutionUtil, if_pos hlt, if_neg (not_lt.mpr hcwch.le)]
      rw [div_eq_mul_inv, one_div]
  · have hchcw : ch ≤ cw := by
      by_contra hcon
      exact hlt (div_lt_one hch |>.mpr (not_le.mp hcon))
    have hres2 : res ≤ res * (cw / ch) := le_mul_of_one_le_right hres.le
      (not_lt.mp hlt)
    have hjr : jsRound res ≤ jsRound (res * (cw / ch)) :=
      Int.floor_le_floor (by linarith)
    have hg : getResolution cw ch res
        = (jsRound (res * (cw / ch)), jsRound res) := by
      simp only [getResolution, if_neg hlt]
    refine ⟨?_, ?_, ?_⟩
    · rw [hg]
      exact min_eq_right hjr
    · rw [hg, if_neg hlt]
      exact max_eq_left hjr
    · rcases lt_or_eq_of_le hchcw with hgt | heqwh
      · rw [hg]
        simp only [getResolutionUtil, if_neg hlt, if_pos hgt]
      · have h1 : cw / ch = 1 := by
          rw [heqwh, div_self hcw.ne']
        have hnotgt : ¬ (cw > ch) := by
          rw [heqwh]
          exact lt_irrefl cw
        rw [hg]
        simp only [getResolutionUtil, if_neg hlt, if_neg hnotgt]
        rw [h1, mul_one]

/-- Witness for the amended claim C8 at a concrete input: surface 200 x 100,
target 128. -/
theorem getResolution_smaller_is_target_witness :
    min (getResolution 200 100 128).1 (getResolution 200 100 128).2
      = jsRound 128
  ∧ max (getResolution 200 100 128).1 (getResolution 200 100 128).2
      = jsRound (128 * (if (200 : ℚ) / 100 < 1 then (100 : ℚ) / 200
          else (200 : ℚ) / 100))
  ∧ getResolution 200 100 128 = getResolutionUtil 200 100 128 :=
  getResolution_smaller_is_target 200 100 128 (by norm_num) (by norm_num)
    (by norm_num)

end Fluid
